import Mathlib

/-!
Verification of the Ethereum blockchain client of the validatornode repository
(`src/pantos/validatornode/blockchains/ethereum.py`) against its specification.

The Python client is shallowly embedded: pure computations become Lean
functions, interactions with external collaborators (blockchain node pool,
nonce store, signer) are made explicit as function parameters describing the
collaborator's response, and Python exceptions become explicit error values
(`Except` / `Option`).  Machine integers are modelled as `Nat` with explicit
range conditions where the underlying encoder enforces them.
-/

/-! ## Byte-level helpers

`web3.Web3.solidity_keccak(types, values)` hashes the tightly packed ABI
encoding of the given values.  We embed the packed encoding (the exact byte
sequence fed to the keccak-256 content hash): `uint256` becomes 32 big-endian
bytes, `string` becomes the UTF-8 bytes of the string, and `address` becomes
the 20 bytes denoted by the 0x-prefixed 40-hex-digit address string.
-/

/-- Big-endian byte representation of `n` with exactly `len` bytes
(most significant byte first). -/
def natToBEBytes : Nat → Nat → List Nat
  | 0, _ => []
  | len + 1, n => natToBEBytes len (n / 256) ++ [n % 256]

/-- Whether a character is a hexadecimal digit (`[a-fA-F0-9]`). -/
def isHexDigit (c : Char) : Bool :=
  ('0' ≤ c && c ≤ '9') || ('a' ≤ c && c ≤ 'f') || ('A' ≤ c && c ≤ 'F')

/-- Numeric value of a hexadecimal digit (0 for non-digits; only applied to
strings already validated by `isHexAddress`). -/
def hexDigitVal (c : Char) : Nat :=
  if '0' ≤ c && c ≤ '9' then c.toNat - '0'.toNat
  else if 'a' ≤ c && c ≤ 'f' then c.toNat - 'a'.toNat + 10
  else if 'A' ≤ c && c ≤ 'F' then c.toNat - 'A'.toNat + 10
  else 0

/-- Numeric value of a big-endian hexadecimal digit sequence. -/
def hexValue (cs : List Char) : Nat :=
  cs.foldl (fun acc c => acc * 16 + hexDigitVal c) 0

/-- Whether a string is a syntactically valid Ethereum address
(`0x` followed by 40 hexadecimal digits), as required by the `address`
ABI type of `solidity_keccak`. -/
def isHexAddress (s : String) : Bool :=
  match s.data with
  | '0' :: 'x' :: rest => (rest.length == 40) && rest.all isHexDigit
  | _ => false

/-- UTF-8 encoding of a single character. -/
def utf8Bytes (c : Char) : List Nat :=
  let n := c.toNat
  if n < 0x80 then [n]
  else if n < 0x800 then [0xC0 + n / 64, 0x80 + n % 64]
  else if n < 0x10000 then [0xE0 + n / 4096, 0x80 + (n / 64) % 64, 0x80 + n % 64]
  else [0xF0 + n / 262144, 0x80 + (n / 4096) % 64, 0x80 + (n / 64) % 64, 0x80 + n % 64]

/-- UTF-8 encoding of a string. -/
def stringUtf8 (s : String) : List Nat :=
  s.data.flatMap utf8Bytes

/-- Packed encoding of a `uint256` value. -/
def uint256Bytes (n : Nat) : List Nat :=
  natToBEBytes 32 n

/-- Packed encoding of an `address` value given as a 0x-prefixed hex string. -/
def addressBytes (s : String) : List Nat :=
  natToBEBytes 20 (hexValue (s.data.drop 2))

/-! ## Solidity packed encoding (`web3.Web3.solidity_keccak` preimage) -/

/-- ABI types appearing in the transferTo attestation message. -/
inductive SolidityType where
  | uint256
  | string
  | address
deriving DecidableEq

/-- Python values passed to `solidity_keccak`: integers or strings. -/
inductive PyValue where
  | int (n : Nat)
  | str (s : String)
deriving DecidableEq

/-- Packed ABI encoding of one value at one type.  `none` models the
exception `solidity_keccak` raises for a value that does not fit the declared
type (an out-of-range integer, a malformed address, or a type mismatch). -/
def encodeSolidityValue : SolidityType → PyValue → Option (List Nat)
  | SolidityType.uint256, PyValue.int n =>
      if n < 2 ^ 256 then some (uint256Bytes n) else none
  | SolidityType.string, PyValue.str s => some (stringUtf8 s)
  | SolidityType.address, PyValue.str s =>
      if isHexAddress s then some (addressBytes s) else none
  | _, _ => none

/-- The byte sequence `web3.Web3.solidity_keccak(types, values)` feeds to
keccak-256: the concatenation of the packed encodings, in order. -/
def solidityKeccakPreimage : List SolidityType → List PyValue → Option (List Nat)
  | [], [] => some []
  | t :: ts, v :: vs => do
      let b ← encodeSolidityValue t v
      let rest ← solidityKeccakPreimage ts vs
      pure (b ++ rest)
  | _, _ => none

/-! ## The canonical transferTo attestation message

Embedding of `EthereumClient.__create_transfer_to_message`
(`ethereum.py`, lines 431-451).  The function returns the content that is
hashed (the keccak-256 preimage); the deterministic hash and the standard
personal-message envelope (`eth_account.messages.encode_defunct`) applied on
top are injective-per-construction external library steps shared by the
signing and the recovery path, so all claims about the message are claims
about this preimage. -/
def create_transfer_to_message (source_blockchain destination_blockchain : Nat)
    (source_transaction_id : String) (source_transfer_id : Nat)
    (sender_address recipient_address source_token_address
      destination_token_address : String) (amount validator_nonce : Nat)
    (hub_address forwarder_address pan_token_address : String) :
    Option (List Nat) :=
  solidityKeccakPreimage
    [SolidityType.uint256, SolidityType.uint256, SolidityType.string,
     SolidityType.uint256, SolidityType.string, SolidityType.address,
     SolidityType.string, SolidityType.address, SolidityType.uint256,
     SolidityType.uint256, SolidityType.address, SolidityType.address,
     SolidityType.address]
    [PyValue.int source_blockchain, PyValue.int destination_blockchain,
     PyValue.str source_transaction_id, PyValue.int source_transfer_id,
     PyValue.str sender_address, PyValue.str recipient_address,
     PyValue.str source_token_address, PyValue.str destination_token_address,
     PyValue.int amount, PyValue.int validator_nonce, PyValue.str hub_address,
     PyValue.str forwarder_address, PyValue.str pan_token_address]

/-- The transferTo attestation message as the specification describes it:
identical to `create_transfer_to_message` except that the sender, recipient,
source token and destination token addresses are all declared at type
`string`.  Defined only to be compared against the embedding of the source
code. -/
def spec_transfer_to_message (source_blockchain destination_blockchain : Nat)
    (source_transaction_id : String) (source_transfer_id : Nat)
    (sender_address recipient_address source_token_address
      destination_token_address : String) (amount validator_nonce : Nat)
    (hub_address forwarder_address pan_token_address : String) :
    Option (List Nat) :=
  solidityKeccakPreimage
    [SolidityType.uint256, SolidityType.uint256, SolidityType.string,
     SolidityType.uint256, SolidityType.string, SolidityType.string,
     SolidityType.string, SolidityType.string, SolidityType.uint256,
     SolidityType.uint256, SolidityType.address, SolidityType.address,
     SolidityType.address]
    [PyValue.int source_blockchain, PyValue.int destination_blockchain,
     PyValue.str source_transaction_id, PyValue.int source_transfer_id,
     PyValue.str sender_address, PyValue.str recipient_address,
     PyValue.str source_token_address, PyValue.str destination_token_address,
     PyValue.int amount, PyValue.int validator_nonce, PyValue.str hub_address,
     PyValue.str forwarder_address, PyValue.str pan_token_address]

/-! ## Domain entities

Modelled from the spec: the `CrossChainTransfer` entity lives in
`pantos/validatornode/entities.py`, which is not under `src/`; its fields are
taken from the spec's data model (section 3) and from the constructor call in
`EthereumClient.__create_outgoing_transfers`.  The `eventual_*` fields are the
eventual destination data the submission path reads
(`eventual_destination_blockchain`, `eventual_recipient_address`,
`eventual_destination_token_address`); for a transfer freshly created from an
event they coincide with the decoded destination data. -/
structure CrossChainTransfer where
  source_blockchain : Nat
  destination_blockchain : Nat
  hub_address : String
  source_transfer_id : Nat
  source_transaction_id : String
  source_block_number : Nat
  source_block_hash : String
  sender_address : String
  recipient_address : String
  source_token_address : String
  destination_token_address : String
  amount : Nat
  fee : Nat
  service_node_address : String
  eventual_destination_blockchain : Nat
  eventual_recipient_address : String
  eventual_destination_token_address : String
deriving DecidableEq

/-- Modelled from the spec: a signature produced by the external signer
capability (`web3.Account`).  The elliptic-curve arithmetic is outside the
program; per the spec's contract for the capability, a signature binds the
enveloped message it was produced over and the address derived from the
signing key, and recovery reproduces the envelope and returns that address
(a mismatched message yields a different, wrong address rather than an
error). -/
structure Signature where
  signed_message : List Nat
  signer_key_address : Nat
deriving DecidableEq

/-- Modelled from the spec: the address derived from a private key by the
external signer capability (`EthereumUtilities.get_address`); an unspecified
deterministic function into the 160-bit address space. -/
def get_address (private_key : Nat) : Nat :=
  private_key % 2 ^ 160

/-- Modelled from the spec: `web3.Account.sign_message` for a message already
wrapped in the personal-message envelope. -/
def sign_message (message : List Nat) (private_key : Nat) : Signature :=
  ⟨message, get_address private_key⟩

/-- Modelled from the spec: `web3.Account.recover_message`.  If the envelope
matches the one signed, the signer's address is recovered; otherwise some
other (wrong) address results. -/
def recover_message (message : List Nat) (signature : Signature) : Nat :=
  if signature.signed_message = message then signature.signer_key_address
  else (signature.signer_key_address + 1) % 2 ^ 160

/-- Modelled from the spec:
`BlockchainClient.TransferToSignerAddressRecoveryRequest` (defined in
`blockchains/base.py`, not under `src/`), with exactly the fields
`recover_transfer_to_signer_address` reads. -/
structure TransferToSignerAddressRecoveryRequest where
  source_blockchain : Nat
  source_transaction_id : String
  source_transfer_id : Nat
  sender_address : String
  recipient_address : String
  source_token_address : String
  destination_token_address : String
  amount : Nat
  validator_nonce : Nat
  signature : Signature
deriving DecidableEq

/-- Modelled from the spec:
`BlockchainClient.TransferToSubmissionStartRequest` (defined in
`blockchains/base.py`, not under `src/`): an incoming transfer, the validator
nonce to embed, and the internal transfer id keying the nonce store. -/
structure TransferToSubmissionStartRequest where
  incoming_transfer : CrossChainTransfer
  validator_nonce : Nat
  internal_transfer_id : Nat
deriving DecidableEq

/-- A decoded `TransferFrom` event record as consumed by
`EthereumClient.__create_outgoing_transfers`: the event arguments plus the
transaction/block envelope data. -/
structure EventData where
  event : String
  sourceTransferId : Nat
  destinationBlockchainId : Nat
  sender : String
  recipient : String
  sourceToken : String
  destinationToken : String
  amount : Nat
  fee : Nat
  serviceNode : String
  transactionHash : String
  blockNumber : Nat
  blockHash : String
deriving DecidableEq

/-- Modelled from the spec: the value of `Blockchain.ETHEREUM` in the
blockchain enumeration of `pantos.common` (the client's own blockchain,
returned by `EthereumClient.get_blockchain`). -/
def ETHEREUM : Nat := 0

/-! ## Error taxonomy

Python exceptions relevant to the client, as explicit values.  `ClientError`
is the domain error type (`EthereumClientError`); `_create_error` attaches a
description of the failed operation and its keyword arguments, modelled as a
message plus a list of named parameters. -/

/-- A keyword argument attached to a created domain error. -/
inductive ErrorParam where
  | natParam (n : Nat)
  | strParam (s : String)
  | transferParam (t : CrossChainTransfer)
  | requestParam (r : TransferToSubmissionStartRequest)
deriving DecidableEq

/-- The domain error type (`EthereumClientError`), including the typed
contract rejections created by `_create_non_matching_forwarder_error` and
`_create_source_transfer_id_already_used_error`. -/
inductive ClientError where
  | generic (message : String) (params : List (String × ErrorParam))
  | nonMatchingForwarder (source_blockchain : Nat) (source_transaction_id : String)
      (destination_token_address : String)
  | sourceTransferIdAlreadyUsed (source_blockchain : Nat) (source_transfer_id : Nat)
      (source_transaction_id : String)
deriving DecidableEq

/-- Python exceptions that can cross the client's method boundaries. -/
inductive PyExc where
  | resultsNotMatching
  | contractLogicError (message : String)
  | transactionNonceTooLow
  | transactionUnderpriced
  | assertionError
  | clientError (e : ClientError)
  | otherExc (message : String)
deriving DecidableEq

/-- Python substring containment (`needle in haystack`) on character lists. -/
def containsSubstring (needle : List Char) : List Char → Bool
  | [] => needle.isEmpty
  | c :: rest => needle.isPrefixOf (c :: rest) || containsSubstring needle rest

/-- Python substring containment on strings (`needle in haystack`). -/
def strContains (haystack needle : String) : Bool :=
  containsSubstring needle.data haystack.data

/-- `_NON_MATCHING_FORWARDER_ERROR` (`ethereum.py`, lines 36-37). -/
def NON_MATCHING_FORWARDER_ERROR : String :=
  "PantosHub: Forwarder of Hub and transferred token must match"

/-- `_SOURCE_TRANSFER_ID_ALREADY_USED_ERROR` (`ethereum.py`, lines 38-39). -/
def SOURCE_TRANSFER_ID_ALREADY_USED_ERROR : String :=
  "PantosHub: source transfer ID already used"

/-! ## Attestation signing and recovery

Embeddings of `EthereumClient.__create_transfer_to_signature`
(`ethereum.py`, lines 453-471) and
`EthereumClient.recover_transfer_to_signer_address` (lines 261-283).
`hub_address`, `forwarder_address` and `pan_token_address` stand for the
configuration values the client reads; `own_blockchain` stands for
`self.get_blockchain()`.  A `none` result models the exception raised when
the message cannot be encoded. -/

/-- Embedding of `EthereumClient.__create_transfer_to_signature`. -/
def create_transfer_to_signature (incoming_transfer : CrossChainTransfer)
    (validator_nonce : Nat) (hub_address forwarder_address pan_token_address : String)
    (private_key : Nat) : Option Signature :=
  (create_transfer_to_message incoming_transfer.source_blockchain
      incoming_transfer.eventual_destination_blockchain
      incoming_transfer.source_transaction_id incoming_transfer.source_transfer_id
      incoming_transfer.sender_address incoming_transfer.eventual_recipient_address
      incoming_transfer.source_token_address
      incoming_transfer.eventual_destination_token_address
      incoming_transfer.amount validator_nonce hub_address forwarder_address
      pan_token_address).map (fun message => sign_message message private_key)

/-- Embedding of `EthereumClient.recover_transfer_to_signer_address`: the
message is rebuilt from the request fields with the client's own blockchain as
destination, and the signer's address is recovered from it together with the
request's signature. -/
def recover_transfer_to_signer_address (own_blockchain : Nat)
    (hub_address forwarder_address pan_token_address : String)
    (request : TransferToSignerAddressRecoveryRequest) : Option Nat :=
  (create_transfer_to_message request.source_blockchain own_blockchain
      request.source_transaction_id request.source_transfer_id
      request.sender_address request.recipient_address
      request.source_token_address request.destination_token_address
      request.amount request.validator_nonce hub_address forwarder_address
      pan_token_address).map (fun message => recover_message message request.signature)

/-! ## The durable nonce store and transferTo submission

Modelled from the spec: the nonce store
(`pantos/validatornode/database/access.py`, not under `src/`) is a keyed
store `internal transfer id → nonce`; `update_transfer_nonce` persists the
given transaction count as the nonce for the id if no nonce is currently
stored for it, else keeps the stored value; `reset_transfer_nonce` clears the
entry; `read_transfer_nonce` reads it. -/

/-- The nonce store state: a map from internal transfer ids to nonces. -/
def NonceStore : Type := Nat → Option Nat

/-- Modelled from the spec: `database_access.update_transfer_nonce`. -/
def update_transfer_nonce (db : NonceStore) (internal_transfer_id nonce : Nat) :
    NonceStore :=
  fun i => if i = internal_transfer_id then some ((db internal_transfer_id).getD nonce)
           else db i

/-- Modelled from the spec: `database_access.read_transfer_nonce`. -/
def read_transfer_nonce (db : NonceStore) (internal_transfer_id : Nat) : Option Nat :=
  db internal_transfer_id

/-- Modelled from the spec: `database_access.reset_transfer_nonce`. -/
def reset_transfer_nonce (db : NonceStore) (internal_transfer_id : Nat) : NonceStore :=
  fun i => if i = internal_transfer_id then none else db i

/-- Embedding of `EthereumClient.__get_nonce` (`ethereum.py`, lines 492-501):
`transaction_count` stands for the account's pending transaction count as
reduced over the node pool; the count is persisted for the transfer id unless
a nonce is already stored, and the stored nonce is read back. -/
def get_nonce (db : NonceStore) (internal_transfer_id transaction_count : Nat) :
    Nat × NonceStore :=
  let db1 := update_transfer_nonce db internal_transfer_id transaction_count
  ((read_transfer_nonce db1 internal_transfer_id).getD 0, db1)

/-- What the external transaction-submission engine
(`BlockchainUtilities.start_transaction_submission`) does with the prepared
request: accepts it (yielding the internal transaction id), rejects it with a
nonce-too-low or underpriced error, or fails otherwise. -/
inductive SubmissionOutcome where
  | success (internal_transaction_id : Nat)
  | nonceTooLow
  | underpriced
  | otherFailure (message : String)
deriving DecidableEq

/-- Embedding of `EthereumClient.__submit_transfer_to_request`
(`ethereum.py`, lines 503-532): resolve the nonce through the store, hand the
request to the submission engine, and on a nonce-too-low or underpriced
rejection clear the stored nonce for the internal transfer id and re-raise
the same error; every other outcome leaves the store as the nonce resolution
left it. -/
def submit_transfer_to_request (db : NonceStore)
    (internal_transfer_id transaction_count : Nat) (outcome : SubmissionOutcome) :
    Except PyExc Nat × NonceStore :=
  let resolved := get_nonce db internal_transfer_id transaction_count
  match outcome with
  | SubmissionOutcome.success tid => (Except.ok tid, resolved.2)
  | SubmissionOutcome.nonceTooLow =>
      (Except.error PyExc.transactionNonceTooLow,
       reset_transfer_nonce resolved.2 internal_transfer_id)
  | SubmissionOutcome.underpriced =>
      (Except.error PyExc.transactionUnderpriced,
       reset_transfer_nonce resolved.2 internal_transfer_id)
  | SubmissionOutcome.otherFailure message =>
      (Except.error (PyExc.otherExc message), resolved.2)

/-! ## Pre-flight verification and the transferTo orchestrator -/

/-- Embedding of `EthereumClient.__verify_transfer_to_request`
(`ethereum.py`, lines 534-558).  `call_result` is what the read-only
`verifyTransferTo` contract call does (`none`: the contract accepts).  Only a
contract-logic rejection is inspected: a reason containing the
non-matching-forwarder message becomes the typed error carrying the source
blockchain, source transaction id and destination token address; otherwise a
reason containing the transfer-id-already-used message becomes the typed
error carrying the source blockchain, source transfer id and source
transaction id; any other contract-logic rejection is re-raised, and any
other exception passes through. -/
def verify_transfer_to_request (incoming_transfer : CrossChainTransfer)
    (call_result : Option PyExc) : Option PyExc :=
  match call_result with
  | none => none
  | some (PyExc.contractLogicError message) =>
      if strContains message NON_MATCHING_FORWARDER_ERROR then
        some (PyExc.clientError (ClientError.nonMatchingForwarder
          incoming_transfer.source_blockchain incoming_transfer.source_transaction_id
          incoming_transfer.destination_token_address))
      else if strContains message SOURCE_TRANSFER_ID_ALREADY_USED_ERROR then
        some (PyExc.clientError (ClientError.sourceTransferIdAlreadyUsed
          incoming_transfer.source_blockchain incoming_transfer.source_transfer_id
          incoming_transfer.source_transaction_id))
      else some (PyExc.contractLogicError message)
  | some e => some e

/-- The exception dispatch of `EthereumClient.start_transfer_to_submission`
(`ethereum.py`, lines 321-327): a node-inconsistency error and a domain error
re-raise unchanged; everything else is wrapped into the domain error for the
operation, carrying its description and the request. -/
def handle_start_exception (e : PyExc)
    (request : TransferToSubmissionStartRequest) : PyExc :=
  match e with
  | PyExc.resultsNotMatching => PyExc.resultsNotMatching
  | PyExc.clientError ce => PyExc.clientError ce
  | _ => PyExc.clientError (ClientError.generic
      "unable to start a transferTo submission"
      [("request", ErrorParam.requestParam request)])

/-- What the collaborators do during one `start_transfer_to_submission` run:
the result of the pre-flight `verifyTransferTo` call and, if it accepts, the
outcome of the transaction submission. -/
structure StartEnv where
  verify_call_result : Option PyExc
  submission_outcome : SubmissionOutcome
deriving DecidableEq

/-- Embedding of `EthereumClient.start_transfer_to_submission`
(`ethereum.py`, lines 285-327).  `own_blockchain` stands for
`self.get_blockchain()`, `transaction_count` for the account's pending
transaction count, and the hub and forwarder configuration addresses are
returned in the response.  The eventual-destination check precedes the `try`
block, so its error is raised directly; inside the block, exceptions flow
through `handle_start_exception`. -/
def start_transfer_to_submission (own_blockchain : Nat) (db : NonceStore)
    (transaction_count : Nat) (hub_address forwarder_address : String)
    (env : StartEnv) (request : TransferToSubmissionStartRequest) :
    Except PyExc (Nat × String × String) × NonceStore :=
  if request.incoming_transfer.eventual_destination_blockchain ≠ own_blockchain then
    (Except.error (PyExc.clientError (ClientError.generic
      "eventual destination blockchain of incoming transfer must be the client blockchain"
      [("request", ErrorParam.requestParam request)])), db)
  else
    match verify_transfer_to_request request.incoming_transfer env.verify_call_result with
    | some e => (Except.error (handle_start_exception e request), db)
    | none =>
      let submitted := submit_transfer_to_request db request.internal_transfer_id
        transaction_count env.submission_outcome
      match submitted.1 with
      | Except.ok tid => (Except.ok (tid, hub_address, forwarder_address), submitted.2)
      | Except.error e => (Except.error (handle_start_exception e request), submitted.2)

/-- Embedding of `EthereumClient.is_token_active` (`ethereum.py`,
lines 84-100).  `call_result` is what the `getTokenRecord` contract call over
the node pool does: a token record (active flag and further data), a
node-inconsistency error, or another exception.  A node-inconsistency error
re-raises unchanged; any other exception is wrapped into the domain error for
the operation. -/
def is_token_active (token_address : String)
    (call_result : Except PyExc (Bool × String)) : Except PyExc Bool :=
  match call_result with
  | Except.ok token_record => Except.ok token_record.1
  | Except.error PyExc.resultsNotMatching => Except.error PyExc.resultsNotMatching
  | Except.error _ => Except.error (PyExc.clientError (ClientError.generic
      "unable to determine if a token is active"
      [("token_address", ErrorParam.strParam token_address)]))

/-- Embedding of `EthereumClient.read_external_token_address`
(`ethereum.py`, lines 135-161).  `call_result` is what the
`getExternalTokenRecord` contract call does: an external token record (active
flag and recorded address) or an exception.  An inactive record yields
`none`; an active record yields the recorded address. -/
def read_external_token_address (token_address : String)
    (external_blockchain : Nat) (call_result : Except PyExc (Bool × String)) :
    Except PyExc (Option String) :=
  match call_result with
  | Except.ok external_token_record =>
      if external_token_record.1 = false then Except.ok none
      else Except.ok (some external_token_record.2)
  | Except.error PyExc.resultsNotMatching => Except.error PyExc.resultsNotMatching
  | Except.error _ => Except.error (PyExc.clientError (ClientError.generic
      "unable to read an external token address"
      [("token_address", ErrorParam.strParam token_address),
       ("external_blockchain", ErrorParam.natParam external_blockchain)]))

/-! ## Reading outgoing transfers -/

/-- `NodeConnections` reduction with the *minimum* policy
(`get_minimum_result`): the least of the per-node results. -/
def get_minimum_result (results : List Nat) : Nat :=
  (results.min?).getD 0

/-- `NodeConnections` reduction with the *maximum* policy
(`get_maximum_result`): the greatest of the per-node results. -/
def get_maximum_result (results : List Nat) : Nat :=
  (results.max?).getD 0

/-- Python `range(start, stop, step)` for natural arguments and positive
step: `start, start + step, ...` while strictly below `stop`. -/
def pyRange (start stop step : Nat) : List Nat :=
  List.range' start ((stop - start + step - 1) / step) step

/-- The event-log fetch of one chunk
(`EthereumUtilities.get_logs(event, from_block, to_block)`): the events of
every block of the inclusive range `[from_block, to_block]`, in on-chain
order.  `chain` gives the ordered events each block holds. -/
def get_logs {α : Type} (chain : Nat → List α) (from_block to_block : Nat) : List α :=
  (List.range' from_block (to_block + 1 - from_block)).flatMap chain

/-- The chunk end points of `read_outgoing_transfers_from_block`
(`ethereum.py`, lines 184-186):
`list(range(from_block + number_blocks, latest, number_blocks)) + [latest]`. -/
def to_block_numbers (from_block latest_block number_blocks : Nat) : List Nat :=
  pyRange (from_block + number_blocks) latest_block number_blocks ++ [latest_block]

/-- The chunked event-log collection loop of
`read_outgoing_transfers_from_block` (`ethereum.py`, lines 189-194): fetch
the logs of `[from_block, to_block]` for each chunk end point in order,
restarting the next chunk at `to_block + 1`, and concatenate the results in
chunk order. -/
def collect_event_logs {α : Type} (chain : Nat → List α) :
    Nat → List Nat → List α
  | _, [] => []
  | from_block, to_block :: rest =>
      get_logs chain from_block to_block ++ collect_event_logs chain (to_block + 1) rest

/-- Embedding of `EthereumClient.__create_outgoing_transfers`
(`ethereum.py`, lines 383-429): map each decoded `TransferFrom` event record
to a `CrossChainTransfer` whose source blockchain is the client's own;
a record whose event name is not `TransferFrom`, or whose decoded destination
blockchain equals the source blockchain, fails the mapping (a Python
assertion error) instead of producing a transfer. -/
def create_outgoing_transfers (event_logs : List EventData)
    (hub_contract_address : String) : Except PyExc (List CrossChainTransfer) :=
  match event_logs with
  | [] => Except.ok []
  | event_log :: rest =>
      if event_log.event ≠ "TransferFrom" then Except.error PyExc.assertionError
      else if ETHEREUM = event_log.destinationBlockchainId then
        Except.error PyExc.assertionError
      else
        match create_outgoing_transfers rest hub_contract_address with
        | Except.error e => Except.error e
        | Except.ok transfers => Except.ok (
            { source_blockchain := ETHEREUM,
              destination_blockchain := event_log.destinationBlockchainId,
              hub_address := hub_contract_address,
              source_transfer_id := event_log.sourceTransferId,
              source_transaction_id := event_log.transactionHash,
              source_block_number := event_log.blockNumber,
              source_block_hash := event_log.blockHash,
              sender_address := event_log.sender,
              recipient_address := event_log.recipient,
              source_token_address := event_log.sourceToken,
              destination_token_address := event_log.destinationToken,
              amount := event_log.amount,
              fee := event_log.fee,
              service_node_address := event_log.serviceNode,
              eventual_destination_blockchain := event_log.destinationBlockchainId,
              eventual_recipient_address := event_log.recipient,
              eventual_destination_token_address := event_log.destinationToken } ::
            transfers)

/-- Embedding of `EthereumClient.read_outgoing_transfers_from_block`
(`ethereum.py`, lines 163-204).  `node_results` are the per-node responses to
the block-number query, reduced with `get_minimum_result`; `number_blocks` is
the configured chunk span; `chain` gives the ordered `TransferFrom` events of
each block.  If the given from-block number exceeds the reduced height, an
empty transfer list is returned with that height; otherwise the chunked logs
are mapped to transfers, and a mapping failure is wrapped into the domain
error of the operation. -/
def read_outgoing_transfers_from_block (node_results : List Nat)
    (number_blocks : Nat) (chain : Nat → List EventData) (hub_address : String)
    (from_block : Nat) : Except PyExc (List CrossChainTransfer × Nat) :=
  let latest_block := get_minimum_result node_results
  if from_block > latest_block then Except.ok ([], latest_block)
  else
    let event_logs := collect_event_logs chain from_block
      (to_block_numbers from_block latest_block number_blocks)
    match create_outgoing_transfers event_logs hub_address with
    | Except.ok transfers => Except.ok (transfers, latest_block)
    | Except.error _ => Except.error (PyExc.clientError (ClientError.generic
        "unable to read outgoing transfers from a starting block"
        [("from_block_number", ErrorParam.natParam from_block)]))

/-! ## Transaction id validation -/

/-- Embedding of `EthereumClient.is_valid_transaction_id`
(`ethereum.py`, lines 112-115):
`re.fullmatch(_TRANSACTION_ID_PATTERN, transaction_id) is not None` with the
pattern `^0x[a-fA-F0-9]{64}`.  `re.fullmatch` succeeds only if the whole
string matches, so exactly the 66-character ids are accepted. -/
def is_valid_transaction_id (transaction_id : String) : Bool :=
  match transaction_id.data with
  | '0' :: 'x' :: rest => (rest.length == 64) && rest.all isHexDigit
  | _ => false

/-- The transaction-id validity check as the claim describes it (a prefix
match: a string whose first 66 characters form a valid id is accepted
regardless of trailing characters).  Defined only to be compared against the
embedding of the source code. -/
def claimed_is_valid_transaction_id (transaction_id : String) : Bool :=
  match transaction_id.data with
  | '0' :: 'x' :: rest => (64 ≤ rest.length : Bool) && (rest.take 64).all isHexDigit
  | _ => false

/-! ## Sample data -/

/-- A well-formed sample Ethereum address. -/
def sampleAddressA : String := "0x1111111111111111111111111111111111111111"

/-- A second well-formed sample Ethereum address. -/
def sampleAddressB : String := "0x2222222222222222222222222222222222222222"

/-- A third well-formed sample Ethereum address. -/
def sampleAddressC : String := "0x3333333333333333333333333333333333333333"

/-- A fourth well-formed sample Ethereum address. -/
def sampleAddressD : String := "0x4444444444444444444444444444444444444444"

/-- A fifth well-formed sample Ethereum address. -/
def sampleAddressE : String := "0x5555555555555555555555555555555555555555"

/-! ## C1: the canonical transferTo attestation message -/

set_option maxRecDepth 8000 in
/-- C1 (counterexample): the claim states that the sender, recipient, source
token and destination token addresses are all encoded as strings in the
attestation message.  At a concrete input, the message the code builds
differs from the message built with all four of those fields declared at
type `string`: the code encodes the recipient and the destination token
address at ABI type `address` (20 bytes), not `string`. -/
theorem C1_counterexample :
    create_transfer_to_message 0 1 "0xab" 2 "0xsender" sampleAddressA
      "0xsourcetoken" sampleAddressB 3 4 sampleAddressC sampleAddressD
      sampleAddressE ≠
    spec_transfer_to_message 0 1 "0xab" 2 "0xsender" sampleAddressA
      "0xsourcetoken" sampleAddressB 3 4 sampleAddressC sampleAddressD
      sampleAddressE := by
  decide

/-- C1 (amended): the canonical transferTo attestation message is the keccak
content hash of exactly the thirteen fields in the claimed order — source
blockchain id, destination blockchain id, source transaction id, source
transfer sequence number, sender address, recipient address, source token
address, destination token address, amount, validator nonce, hub contract
address, forwarder contract address, reference (PAN) token contract
address — but the sender and source token addresses are encoded as strings
while the recipient and destination token addresses are encoded as 20-byte
`address` values (as are the hub, forwarder and PAN token addresses).  The
hash preimage is exactly the in-order concatenation of those encodings. -/
theorem C1_transfer_to_message_encoding
    (source_blockchain destination_blockchain : Nat)
    (source_transaction_id : String) (source_transfer_id : Nat)
    (sender_address recipient_address source_token_address
      destination_token_address : String) (amount validator_nonce : Nat)
    (hub_address forwarder_address pan_token_address : String)
    (h_recipient : isHexAddress recipient_address = true)
    (h_destination_token : isHexAddress destination_token_address = true)
    (h_hub : isHexAddress hub_address = true)
    (h_forwarder : isHexAddress forwarder_address = true)
    (h_pan : isHexAddress pan_token_address = true)
    (h_source : source_blockchain < 2 ^ 256)
    (h_destination : destination_blockchain < 2 ^ 256)
    (h_transfer_id : source_transfer_id < 2 ^ 256)
    (h_amount : amount < 2 ^ 256) (h_nonce : validator_nonce < 2 ^ 256) :
    create_transfer_to_message source_blockchain destination_blockchain
      source_transaction_id source_transfer_id sender_address recipient_address
      source_token_address destination_token_address amount validator_nonce
      hub_address forwarder_address pan_token_address =
    some (uint256Bytes source_blockchain ++ uint256Bytes destination_blockchain ++
      stringUtf8 source_transaction_id ++ uint256Bytes source_transfer_id ++
      stringUtf8 sender_address ++ addressBytes recipient_address ++
      stringUtf8 source_token_address ++ addressBytes destination_token_address ++
      uint256Bytes amount ++ uint256Bytes validator_nonce ++
      addressBytes hub_address ++ addressBytes forwarder_address ++
      addressBytes pan_token_address) := by
  simp only [create_transfer_to_message, solidityKeccakPreimage,
    encodeSolidityValue]
  rw [if_pos h_source, if_pos h_destination, if_pos h_transfer_id,
    if_pos h_amount, if_pos h_nonce, if_pos h_recipient,
    if_pos h_destination_token, if_pos h_hub, if_pos h_forwarder, if_pos h_pan]
  simp [List.append_assoc]

/-- C1 (witness): the amended encoding theorem at a concrete input. -/
theorem C1_transfer_to_message_encoding_witness :
    create_transfer_to_message 0 1 "0xab" 2 "0xsender" sampleAddressA
      "0xsourcetoken" sampleAddressB 3 4 sampleAddressC sampleAddressD
      sampleAddressE =
    some (uint256Bytes 0 ++ uint256Bytes 1 ++ stringUtf8 "0xab" ++
      uint256Bytes 2 ++ stringUtf8 "0xsender" ++ addressBytes sampleAddressA ++
      stringUtf8 "0xsourcetoken" ++ addressBytes sampleAddressB ++
      uint256Bytes 3 ++ uint256Bytes 4 ++ addressBytes sampleAddressC ++
      addressBytes sampleAddressD ++ addressBytes sampleAddressE) :=
  C1_transfer_to_message_encoding 0 1 "0xab" 2 "0xsender" sampleAddressA
    "0xsourcetoken" sampleAddressB 3 4 sampleAddressC sampleAddressD
    sampleAddressE (by decide) (by decide) (by decide) (by decide) (by decide)
    (by decide) (by decide) (by decide) (by decide) (by decide)

/-! ## C4: transaction id validation -/

/-- C4 (counterexample): the claim states that the check matches only the
66-character prefix, so a longer string whose first 66 characters form a
valid id is still accepted.  On the concrete 67-character input
`"0x" + "a"*64 + "g"` the code rejects (Python `re.fullmatch` requires the
whole string to match the pattern `^0x[a-fA-F0-9]{64}`), while the claimed
prefix-matching check accepts. -/
theorem C4_counterexample :
    is_valid_transaction_id "0xaaaaaaaaaaaaaaaaaaaaaaaaaaaaaaaaaaaaaaaaaaaaaaaaaaaaaaaaaaaaaaaag" = false ∧
    claimed_is_valid_transaction_id "0xaaaaaaaaaaaaaaaaaaaaaaaaaaaaaaaaaaaaaaaaaaaaaaaaaaaaaaaaaaaaaaaag" = true := by
  decide

/-- C4 (amended): `is_valid_transaction_id` accepts a string iff it consists
of exactly `0x` followed by 64 case-insensitive hexadecimal digits
(66 characters in total); trailing characters beyond the 66th are rejected,
because `re.fullmatch` anchors the pattern at both ends of the string. -/
theorem C4_transaction_id_exact_match (transaction_id : String) :
    is_valid_transaction_id transaction_id = true ↔
      (transaction_id.data.length = 66 ∧
        transaction_id.data.take 2 = ['0', 'x'] ∧
        (transaction_id.data.drop 2).all isHexDigit = true) := by
  unfold is_valid_transaction_id
  split
  · rename_i rest heq
    rw [heq]
    simp only [List.length_cons, List.take_succ_cons, List.take_zero,
      List.drop_succ_cons, List.drop_zero, Bool.and_eq_true, beq_iff_eq]
    constructor
    · rintro ⟨h1, h2⟩
      exact ⟨by omega, trivial, h2⟩
    · rintro ⟨h1, _, h3⟩
      exact ⟨by omega, h3⟩
  · rename_i hne
    simp only [Bool.false_eq_true, false_iff]
    rintro ⟨hlen, htake, -⟩
    exact hne (transaction_id.data.drop 2)
      (by rw [← List.take_append_drop 2 transaction_id.data, htake]; rfl)

/-! ## C10: reading the external token address -/

/-- C10: for a successfully fetched external token record,
`read_external_token_address` returns `none` exactly when the record's
active flag is false, and when the flag is true it returns the address
stored in the record. -/
theorem C10_read_external_token_address (token_address : String)
    (external_blockchain : Nat) (external_token_record : Bool × String) :
    (read_external_token_address token_address external_blockchain
        (Except.ok external_token_record) = Except.ok none ↔
      external_token_record.1 = false) ∧
    (external_token_record.1 = true →
      read_external_token_address token_address external_blockchain
        (Except.ok external_token_record) =
      Except.ok (some external_token_record.2)) := by
  cases h : external_token_record.1 <;>
    simp [read_external_token_address, h]

/-- C10 (witness): the theorem at a concrete active record and a concrete
inactive record. -/
theorem C10_read_external_token_address_witness :
    read_external_token_address "0xtoken" 1 (Except.ok (true, "0xextern")) =
      Except.ok (some "0xextern") ∧
    read_external_token_address "0xtoken" 1 (Except.ok (false, "0xextern")) =
      Except.ok none :=
  ⟨(C10_read_external_token_address "0xtoken" 1 (true, "0xextern")).2 rfl,
   (C10_read_external_token_address "0xtoken" 1 (false, "0xextern")).1.mpr rfl⟩

/-! ## C2: nonce handling of the transferTo submission -/

/-- C2: during transferTo submission, a nonce-too-low rejection and an
underpriced rejection — and only these two submission failures, which are
treated identically — clear the stored nonce for the internal transfer id
and re-raise the same error; any other failure (and a success) leaves the
stored nonce exactly as the nonce-resolution step left it: present, equal to
the previously stored nonce or, when none was stored, to the freshly read
transaction count. -/
theorem C2_submit_transfer_to_nonce_reset (db : NonceStore)
    (internal_transfer_id transaction_count : Nat) (outcome : SubmissionOutcome) :
    (outcome = SubmissionOutcome.nonceTooLow →
      (submit_transfer_to_request db internal_transfer_id transaction_count
        outcome).1 = Except.error PyExc.transactionNonceTooLow ∧
      (submit_transfer_to_request db internal_transfer_id transaction_count
        outcome).2 internal_transfer_id = none) ∧
    (outcome = SubmissionOutcome.underpriced →
      (submit_transfer_to_request db internal_transfer_id transaction_count
        outcome).1 = Except.error PyExc.transactionUnderpriced ∧
      (submit_transfer_to_request db internal_transfer_id transaction_count
        outcome).2 internal_transfer_id = none) ∧
    (∀ message, outcome = SubmissionOutcome.otherFailure message →
      (submit_transfer_to_request db internal_transfer_id transaction_count
        outcome).1 = Except.error (PyExc.otherExc message) ∧
      (submit_transfer_to_request db internal_transfer_id transaction_count
        outcome).2 internal_transfer_id =
        some ((db internal_transfer_id).getD transaction_count)) ∧
    (∀ internal_transaction_id,
      outcome = SubmissionOutcome.success internal_transaction_id →
      (submit_transfer_to_request db internal_transfer_id transaction_count
        outcome).2 internal_transfer_id =
        some ((db internal_transfer_id).getD transaction_count)) := by
  cases outcome <;>
    simp [submit_transfer_to_request, get_nonce, update_transfer_nonce,
      read_transfer_nonce, reset_transfer_nonce]

/-- C2 (witness): the theorem at concrete inputs: a nonce-too-low rejection
clears the stored nonce and re-raises, an unrelated failure keeps it. -/
theorem C2_submit_transfer_to_nonce_reset_witness :
    ((submit_transfer_to_request (fun _ => none) 1 5
        SubmissionOutcome.nonceTooLow).1 =
      Except.error PyExc.transactionNonceTooLow ∧
     (submit_transfer_to_request (fun _ => none) 1 5
        SubmissionOutcome.nonceTooLow).2 1 = none) ∧
    ((submit_transfer_to_request (fun _ => none) 1 5
        (SubmissionOutcome.otherFailure "boom")).2 1 = some 5) :=
  ⟨(C2_submit_transfer_to_nonce_reset (fun _ => none) 1 5
      SubmissionOutcome.nonceTooLow).1 rfl,
   ((C2_submit_transfer_to_nonce_reset (fun _ => none) 1 5
      (SubmissionOutcome.otherFailure "boom")).2.2.1 "boom" rfl).2⟩

/-! ## Sample transfer data -/

/-- A sample incoming cross-chain transfer destined for the client's own
blockchain. -/
def sampleTransfer : CrossChainTransfer :=
  { source_blockchain := 1, destination_blockchain := 0,
    hub_address := sampleAddressC, source_transfer_id := 7,
    source_transaction_id := "0xdeadbeef", source_block_number := 100,
    source_block_hash := "0xblockhash", sender_address := "0xsender",
    recipient_address := sampleAddressA, source_token_address := "0xsrctok",
    destination_token_address := sampleAddressB, amount := 1000, fee := 10,
    service_node_address := sampleAddressD,
    eventual_destination_blockchain := 0,
    eventual_recipient_address := sampleAddressA,
    eventual_destination_token_address := sampleAddressB }

/-- A sample transferTo submission request for `sampleTransfer`. -/
def sampleRequest : TransferToSubmissionStartRequest :=
  ⟨sampleTransfer, 42, 1⟩

/-! ## C6: classification of pre-flight verification rejections -/

/-- C6: when the pre-flight `verifyTransferTo` call rejects with a
contract-logic reason, a reason containing the forwarder-mismatch message
raises the typed non-matching-forwarder error carrying the source
blockchain, the source transaction id and the destination token address; a
reason containing the transfer-id-already-used message (and not the
forwarder-mismatch message, which is checked first) raises the typed
source-transfer-id-already-used error carrying the source blockchain, the
source transfer id and the source transaction id; a reason containing
neither propagates out of `start_transfer_to_submission` as the generic
domain error of the submission operation. -/
theorem C6_verify_rejection_classification (incoming_transfer : CrossChainTransfer)
    (message : String) :
    (strContains message NON_MATCHING_FORWARDER_ERROR = true →
      verify_transfer_to_request incoming_transfer
        (some (PyExc.contractLogicError message)) =
      some (PyExc.clientError (ClientError.nonMatchingForwarder
        incoming_transfer.source_blockchain
        incoming_transfer.source_transaction_id
        incoming_transfer.destination_token_address))) ∧
    (strContains message NON_MATCHING_FORWARDER_ERROR = false →
      strContains message SOURCE_TRANSFER_ID_ALREADY_USED_ERROR = true →
      verify_transfer_to_request incoming_transfer
        (some (PyExc.contractLogicError message)) =
      some (PyExc.clientError (ClientError.sourceTransferIdAlreadyUsed
        incoming_transfer.source_blockchain
        incoming_transfer.source_transfer_id
        incoming_transfer.source_transaction_id))) ∧
    (∀ (own_blockchain : Nat) (db : NonceStore) (transaction_count : Nat)
      (hub_address forwarder_address : String)
      (request : TransferToSubmissionStartRequest)
      (submission_outcome : SubmissionOutcome),
      request.incoming_transfer.eventual_destination_blockchain = own_blockchain →
      strContains message NON_MATCHING_FORWARDER_ERROR = false →
      strContains message SOURCE_TRANSFER_ID_ALREADY_USED_ERROR = false →
      (start_transfer_to_submission own_blockchain db transaction_count
        hub_address forwarder_address
        ⟨some (PyExc.contractLogicError message), submission_outcome⟩ request).1 =
      Except.error (PyExc.clientError (ClientError.generic
        "unable to start a transferTo submission"
        [("request", ErrorParam.requestParam request)]))) := by
  refine ⟨fun h1 => ?_, fun h1 h2 => ?_, ?_⟩
  · simp [verify_transfer_to_request, h1]
  · simp [verify_transfer_to_request, h1, h2]
  · intro own_blockchain db transaction_count hub_address forwarder_address
      request submission_outcome h_dest h1 h2
    simp [start_transfer_to_submission, h_dest, verify_transfer_to_request,
      h1, h2, handle_start_exception]

/-- C6 (witness): the classification at concrete rejection reasons: the two
published hub rejection messages map to their typed errors, and an unrelated
reason is wrapped into the generic submission failure. -/
theorem C6_verify_rejection_classification_witness :
    verify_transfer_to_request sampleTransfer
      (some (PyExc.contractLogicError NON_MATCHING_FORWARDER_ERROR)) =
      some (PyExc.clientError (ClientError.nonMatchingForwarder 1 "0xdeadbeef"
        sampleAddressB)) ∧
    verify_transfer_to_request sampleTransfer
      (some (PyExc.contractLogicError SOURCE_TRANSFER_ID_ALREADY_USED_ERROR)) =
      some (PyExc.clientError (ClientError.sourceTransferIdAlreadyUsed 1 7
        "0xdeadbeef")) ∧
    (start_transfer_to_submission 0 (fun _ => none) 5 sampleAddressC
      sampleAddressD
      ⟨some (PyExc.contractLogicError "execution reverted"),
        SubmissionOutcome.success 0⟩ sampleRequest).1 =
      Except.error (PyExc.clientError (ClientError.generic
        "unable to start a transferTo submission"
        [("request", ErrorParam.requestParam sampleRequest)])) :=
  ⟨(C6_verify_rejection_classification sampleTransfer
      NON_MATCHING_FORWARDER_ERROR).1 (by decide),
   (C6_verify_rejection_classification sampleTransfer
      SOURCE_TRANSFER_ID_ALREADY_USED_ERROR).2.1 (by decide) (by decide),
   (C6_verify_rejection_classification sampleTransfer "execution reverted").2.2
      0 (fun _ => none) 5 sampleAddressC sampleAddressD sampleRequest
      (SubmissionOutcome.success 0) rfl (by decide) (by decide)⟩

/-! ## C8: propagation and wrapping of operation failures -/

/-- Whether an exception is the generic (operation-wrapping) form of the
domain error type. -/
def isGenericClientError : PyExc → Bool
  | PyExc.clientError (ClientError.generic _ _) => true
  | _ => false

/-- C8 (counterexample): the claim states that during any public operation
every exception other than a node-inconsistency error is wrapped into the
generic domain error carrying the operation description and its parameters.
During `start_transfer_to_submission`, a pre-flight rejection whose reason
contains the forwarder-mismatch message reaches the caller as the typed
non-matching-forwarder error, unchanged and not of the generic wrapped form,
and it is not a node-inconsistency error either. -/
theorem C8_counterexample :
    (start_transfer_to_submission 0 (fun _ => none) 5 sampleAddressC
      sampleAddressD
      ⟨some (PyExc.contractLogicError NON_MATCHING_FORWARDER_ERROR),
        SubmissionOutcome.success 0⟩ sampleRequest).1 =
      Except.error (PyExc.clientError (ClientError.nonMatchingForwarder 1
        "0xdeadbeef" sampleAddressB)) ∧
    isGenericClientError (PyExc.clientError (ClientError.nonMatchingForwarder 1
      "0xdeadbeef" sampleAddressB)) = false ∧
    PyExc.clientError (ClientError.nonMatchingForwarder 1 "0xdeadbeef"
      sampleAddressB) ≠ PyExc.resultsNotMatching :=
  ⟨rfl, rfl, by decide⟩

/-- C8 (amended): for the public read and submission operations, a
node-inconsistency error propagates to the caller unchanged, and any other
exception is wrapped into the single domain error type carrying a
description of the operation and its input parameters — except that in the
transferTo submission operation an exception already of the domain error
type (in particular a typed contract rejection) propagates unchanged. -/
theorem C8_error_propagation (token_address : String) (call_exc : PyExc)
    (own_blockchain : Nat) (db : NonceStore) (transaction_count : Nat)
    (hub_address forwarder_address : String)
    (request : TransferToSubmissionStartRequest) (verify_msg sub_msg : String)
    (h_dest : request.incoming_transfer.eventual_destination_blockchain =
      own_blockchain) :
    (is_token_active token_address (Except.error PyExc.resultsNotMatching) =
      Except.error PyExc.resultsNotMatching) ∧
    ((start_transfer_to_submission own_blockchain db transaction_count
        hub_address forwarder_address
        ⟨some PyExc.resultsNotMatching, SubmissionOutcome.success 0⟩ request).1 =
      Except.error PyExc.resultsNotMatching) ∧
    (call_exc ≠ PyExc.resultsNotMatching →
      is_token_active token_address (Except.error call_exc) =
      Except.error (PyExc.clientError (ClientError.generic
        "unable to determine if a token is active"
        [("token_address", ErrorParam.strParam token_address)]))) ∧
    ((start_transfer_to_submission own_blockchain db transaction_count
        hub_address forwarder_address
        ⟨some (PyExc.otherExc verify_msg), SubmissionOutcome.success 0⟩
        request).1 =
      Except.error (PyExc.clientError (ClientError.generic
        "unable to start a transferTo submission"
        [("request", ErrorParam.requestParam request)]))) ∧
    ((start_transfer_to_submission own_blockchain db transaction_count
        hub_address forwarder_address
        ⟨none, SubmissionOutcome.nonceTooLow⟩ request).1 =
      Except.error (PyExc.clientError (ClientError.generic
        "unable to start a transferTo submission"
        [("request", ErrorParam.requestParam request)]))) ∧
    ((start_transfer_to_submission own_blockchain db transaction_count
        hub_address forwarder_address
        ⟨none, SubmissionOutcome.underpriced⟩ request).1 =
      Except.error (PyExc.clientError (ClientError.generic
        "unable to start a transferTo submission"
        [("request", ErrorParam.requestParam request)]))) ∧
    ((start_transfer_to_submission own_blockchain db transaction_count
        hub_address forwarder_address
        ⟨none, SubmissionOutcome.otherFailure sub_msg⟩ request).1 =
      Except.error (PyExc.clientError (ClientError.generic
        "unable to start a transferTo submission"
        [("request", ErrorParam.requestParam request)]))) ∧
    (∀ domain_error : ClientError,
      (start_transfer_to_submission own_blockchain db transaction_count
        hub_address forwarder_address
        ⟨some (PyExc.clientError domain_error), SubmissionOutcome.success 0⟩
        request).1 =
      Except.error (PyExc.clientError domain_error)) := by
  refine ⟨rfl, ?_, fun h => ?_, ?_, ?_, ?_, ?_, fun domain_error => ?_⟩ <;>
    first
    | (cases call_exc <;> simp_all [is_token_active])
    | simp [start_transfer_to_submission, h_dest, verify_transfer_to_request,
        handle_start_exception, submit_transfer_to_request, get_nonce]

/-- C8 (witness): the amended propagation behavior at concrete inputs: an
unrelated exception during the token read and a nonce-too-low submission
rejection are both wrapped into the generic domain error of their
operation. -/
theorem C8_error_propagation_witness :
    (is_token_active "0xtoken" (Except.error (PyExc.otherExc "boom")) =
      Except.error (PyExc.clientError (ClientError.generic
        "unable to determine if a token is active"
        [("token_address", ErrorParam.strParam "0xtoken")]))) ∧
    ((start_transfer_to_submission 0 (fun _ => none) 5 sampleAddressC
        sampleAddressD ⟨none, SubmissionOutcome.nonceTooLow⟩ sampleRequest).1 =
      Except.error (PyExc.clientError (ClientError.generic
        "unable to start a transferTo submission"
        [("request", ErrorParam.requestParam sampleRequest)]))) :=
  ⟨(C8_error_propagation "0xtoken" (PyExc.otherExc "boom") 0 (fun _ => none) 5
      sampleAddressC sampleAddressD sampleRequest "m" "n" rfl).2.2.1
      (by decide),
   (C8_error_propagation "0xtoken" (PyExc.otherExc "boom") 0 (fun _ => none) 5
      sampleAddressC sampleAddressD sampleRequest "m" "n" rfl).2.2.2.2.1⟩

/-! ## C9: the mapping invariant on decoded events -/

/-- If some decoded event record in the list names the client's own
blockchain as destination, the mapping to transfers fails. -/
lemma create_outgoing_transfers_error_of_own_destination (hub : String) :
    ∀ (event_logs : List EventData) (e : EventData), e ∈ event_logs →
      e.destinationBlockchainId = ETHEREUM →
      ∀ transfers, create_outgoing_transfers event_logs hub ≠ Except.ok transfers := by
  intro event_logs
  induction event_logs with
  | nil => simp
  | cons a rest ih =>
    intro e he hdest transfers
    simp only [create_outgoing_transfers]
    by_cases hev : a.event = "TransferFrom"
    · rcases List.mem_cons.mp he with rfl | hmem
      · rw [if_neg (by simp [hev]), if_pos hdest.symm]
        simp
      · rw [if_neg (by simp [hev])]
        by_cases hd2 : ETHEREUM = a.destinationBlockchainId
        · rw [if_pos hd2]; simp
        · rw [if_neg hd2]
          cases hrec : create_outgoing_transfers rest hub with
          | error _ => simp
          | ok ts' => exact absurd hrec (ih e hmem hdest ts')
    · rw [if_pos hev]
      simp

/-- Every transfer the mapping produces pairs distinct source and
destination blockchains. -/
lemma create_outgoing_transfers_distinct_chains (hub : String) :
    ∀ (event_logs : List EventData) (transfers : List CrossChainTransfer),
      create_outgoing_transfers event_logs hub = Except.ok transfers →
      ∀ t ∈ transfers, t.source_blockchain ≠ t.destination_blockchain := by
  intro event_logs
  induction event_logs with
  | nil =>
    intro transfers h t ht
    simp only [create_outgoing_transfers] at h
    cases h
    simp at ht
  | cons a rest ih =>
    intro transfers h t ht
    simp only [create_outgoing_transfers] at h
    by_cases hev : a.event = "TransferFrom"
    · rw [if_neg (by simp [hev])] at h
      by_cases hd2 : ETHEREUM = a.destinationBlockchainId
      · rw [if_pos hd2] at h; cases h
      · rw [if_neg hd2] at h
        cases hrec : create_outgoing_transfers rest hub with
        | error _ => rw [hrec] at h; cases h
        | ok ts' =>
          rw [hrec] at h
          cases h
          rcases List.mem_cons.mp ht with rfl | hmem
          · exact hd2
          · exact ih ts' hrec t hmem
    · rw [if_pos hev] at h
      cases h

/-- C9: a decoded `TransferFrom` event record whose destination blockchain
id equals the client's own (source) blockchain id makes the mapping to
`CrossChainTransfer` fail rather than return a transfer list, and every
transfer the mapping does produce has a source blockchain distinct from its
destination blockchain. -/
theorem C9_mapping_rejects_own_destination (event_logs : List EventData)
    (hub_contract_address : String) :
    (∀ e ∈ event_logs, e.destinationBlockchainId = ETHEREUM →
      ∀ transfers, create_outgoing_transfers event_logs hub_contract_address ≠
        Except.ok transfers) ∧
    (∀ transfers,
      create_outgoing_transfers event_logs hub_contract_address =
        Except.ok transfers →
      ∀ t ∈ transfers, t.source_blockchain ≠ t.destination_blockchain) :=
  ⟨fun e he hd =>
    create_outgoing_transfers_error_of_own_destination hub_contract_address
      event_logs e he hd,
   create_outgoing_transfers_distinct_chains hub_contract_address event_logs⟩

/-- A decoded event whose destination blockchain id is the client's own. -/
def sampleOwnDestinationEvent : EventData :=
  { event := "TransferFrom", sourceTransferId := 7,
    destinationBlockchainId := ETHEREUM, sender := "0xsender",
    recipient := sampleAddressA, sourceToken := "0xsrctok",
    destinationToken := sampleAddressB, amount := 1000, fee := 10,
    serviceNode := sampleAddressD, transactionHash := "0xdeadbeef",
    blockNumber := 100, blockHash := "0xblockhash" }

/-- A decoded event destined for a foreign blockchain. -/
def sampleForeignDestinationEvent : EventData :=
  { sampleOwnDestinationEvent with destinationBlockchainId := 1 }

/-- The transfer `sampleForeignDestinationEvent` maps to. -/
def sampleMappedTransfer : CrossChainTransfer :=
  { source_blockchain := ETHEREUM, destination_blockchain := 1,
    hub_address := sampleAddressC, source_transfer_id := 7,
    source_transaction_id := "0xdeadbeef", source_block_number := 100,
    source_block_hash := "0xblockhash", sender_address := "0xsender",
    recipient_address := sampleAddressA, source_token_address := "0xsrctok",
    destination_token_address := sampleAddressB, amount := 1000, fee := 10,
    service_node_address := sampleAddressD,
    eventual_destination_blockchain := 1,
    eventual_recipient_address := sampleAddressA,
    eventual_destination_token_address := sampleAddressB }

/-- C9 (witness): the theorem at concrete events: a record destined for the
client's own blockchain cannot map to the empty transfer list, and the
transfer mapped from a foreign-destination record pairs distinct chains. -/
theorem C9_mapping_rejects_own_destination_witness :
    create_outgoing_transfers [sampleOwnDestinationEvent] sampleAddressC ≠
      Except.ok [] ∧
    sampleMappedTransfer.source_blockchain ≠
      sampleMappedTransfer.destination_blockchain :=
  ⟨(C9_mapping_rejects_own_destination [sampleOwnDestinationEvent]
      sampleAddressC).1 sampleOwnDestinationEvent (by simp) rfl [],
   (C9_mapping_rejects_own_destination [sampleForeignDestinationEvent]
      sampleAddressC).2 [sampleMappedTransfer] rfl sampleMappedTransfer
      (by simp)⟩

/-! ## C3: the height reduction of the outgoing-transfer read -/

/-- The *minimum* reduction picks a member of the node results that is a
lower bound of all of them. -/
lemma get_minimum_result_spec (results : List Nat) (h : results ≠ []) :
    get_minimum_result results ∈ results ∧
      ∀ r ∈ results, get_minimum_result results ≤ r := by
  obtain ⟨a, ha⟩ : ∃ a, results.min? = some a := by
    cases results with
    | nil => exact absurd rfl h
    | cons x xs => exact ⟨_, List.min?_cons⟩
  have hspec := (List.min?_eq_some_iff (fun a => le_refl a)
    (fun a b => min_choice a b) (fun a b c => le_min_iff)).mp ha
  rw [get_minimum_result, ha]
  exact hspec

/-- C3 (counterexample): the claim states that the chain height is the
*maximum* of the per-node block-number responses.  With node responses
`[5, 10]` and from-block number 12 the code returns the empty transfer list
with height 5 — the *minimum* of the responses — while the claimed maximum
reduction yields 10. -/
theorem C3_counterexample :
    read_outgoing_transfers_from_block [5, 10] 3 (fun _ => []) sampleAddressC
      12 = Except.ok ([], 5) ∧
    get_maximum_result [5, 10] = 10 ∧ (5 : Nat) ≠ 10 :=
  ⟨rfl, rfl, by decide⟩

/-- C3 (amended): `read_outgoing_transfers_from_block` determines the
chain's current height by reducing the per-node block-number responses with
the *minimum* policy (a member of the responses that bounds them all from
below); every successful read reports that height, and if the given
from-block number exceeds it, the empty transfer list is returned together
with that height. -/
theorem C3_read_uses_minimum_height (node_results : List Nat)
    (number_blocks : Nat) (chain : Nat → List EventData) (hub_address : String)
    (from_block : Nat) (h_nodes : node_results ≠ []) :
    (get_minimum_result node_results ∈ node_results ∧
      ∀ r ∈ node_results, get_minimum_result node_results ≤ r) ∧
    (∀ transfers latest_block,
      read_outgoing_transfers_from_block node_results number_blocks chain
        hub_address from_block = Except.ok (transfers, latest_block) →
      latest_block = get_minimum_result node_results) ∧
    (from_block > get_minimum_result node_results →
      read_outgoing_transfers_from_block node_results number_blocks chain
        hub_address from_block =
      Except.ok ([], get_minimum_result node_results)) := by
  refine ⟨get_minimum_result_spec node_results h_nodes, ?_, ?_⟩
  · intro transfers latest_block hread
    unfold read_outgoing_transfers_from_block at hread
    by_cases hgt : from_block > get_minimum_result node_results
    · rw [if_pos hgt] at hread
      cases hread
      rfl
    · rw [if_neg hgt] at hread
      have hread2 : (match
          create_outgoing_transfers
            (collect_event_logs chain from_block
              (to_block_numbers from_block (get_minimum_result node_results)
                number_blocks)) hub_address with
        | Except.ok ts => Except.ok (ts, get_minimum_result node_results)
        | Except.error _ =>
            Except.error (PyExc.clientError (ClientError.generic
              "unable to read outgoing transfers from a starting block"
              [("from_block_number", ErrorParam.natParam from_block)]))) =
          Except.ok (transfers, latest_block) := hread
      split at hread2
      · cases hread2; rfl
      · cases hread2
  · intro hgt
    unfold read_outgoing_transfers_from_block
    rw [if_pos hgt]

/-- C3 (witness): the amended theorem at concrete inputs. -/
theorem C3_read_uses_minimum_height_witness :
    (get_minimum_result [5, 10] ∈ [5, 10] ∧
      ∀ r ∈ [5, 10], get_minimum_result [5, 10] ≤ r) ∧
    read_outgoing_transfers_from_block [5, 10] 3 (fun _ => []) sampleAddressC
      12 = Except.ok ([], get_minimum_result [5, 10]) :=
  ⟨(C3_read_uses_minimum_height [5, 10] 3 (fun _ => []) sampleAddressC 12
      (by decide)).1,
   (C3_read_uses_minimum_height [5, 10] 3 (fun _ => []) sampleAddressC 12
      (by decide)).2.2 (by decide)⟩

/-! ## C5: chunked fetching covers the block range exactly once -/

/-- Fetching two adjacent inclusive block ranges and concatenating equals
fetching the joined range. -/
lemma get_logs_append {α : Type} (chain : Nat → List α) (f t l : Nat)
    (h1 : f ≤ t + 1) (h2 : t ≤ l) :
    get_logs chain f t ++ get_logs chain (t + 1) l = get_logs chain f l := by
  unfold get_logs
  rw [← List.flatMap_append]
  congr 1
  have h3 := List.range'_append f (t + 1 - f) (l + 1 - (t + 1)) 1
  rw [show f + 1 * (t + 1 - f) = t + 1 by omega] at h3
  rw [show l + 1 - (t + 1) + (t + 1 - f) = l + 1 - f by omega] at h3
  exact h3

/-- The last element of a list, when it exists, is a member. -/
lemma mem_of_getLast?_eq_some {α : Type} {l : List α} {a : α}
    (h : l.getLast? = some a) : a ∈ l := by
  obtain ⟨hne, rfl⟩ := List.mem_getLast?_eq_getLast h
  exact List.getLast_mem hne

/-- The chunk loop over strictly increasing chunk end points, all at least
the starting block, collects exactly the logs of the range from the starting
block to the last end point. -/
lemma collect_event_logs_eq_get_logs {α : Type} (chain : Nat → List α) :
    ∀ (tos : List Nat) (f l : Nat), tos.getLast? = some l →
      (∀ t ∈ tos, f ≤ t) → List.Pairwise (· < ·) tos →
      collect_event_logs chain f tos = get_logs chain f l := by
  intro tos
  induction tos with
  | nil => intro f l h; cases h
  | cons t rest ih =>
    intro f l hlast hge hpw
    cases rest with
    | nil =>
      cases hlast
      simp [collect_event_logs]
    | cons r rest' =>
      have hlast' : (r :: rest').getLast? = some l := by
        rw [← hlast]; rfl
      have hlt : ∀ u ∈ r :: rest', t < u := by
        intro u hu
        exact (List.pairwise_cons.mp hpw).1 u hu
      have hcollect : collect_event_logs chain (t + 1) (r :: rest') =
          get_logs chain (t + 1) l := by
        refine ih (t + 1) l hlast' (fun u hu => hlt u hu) ?_
        exact (List.pairwise_cons.mp hpw).2
      have htl : t ≤ l := le_of_lt (hlt l (mem_of_getLast?_eq_some hlast'))
      have hft : f ≤ t := hge t (List.mem_cons_self t _)
      calc collect_event_logs chain f (t :: r :: rest')
          = get_logs chain f t ++ collect_event_logs chain (t + 1) (r :: rest') :=
            rfl
        _ = get_logs chain f t ++ get_logs chain (t + 1) l := by rw [hcollect]
        _ = get_logs chain f l := get_logs_append chain f t l (by omega) htl

/-- Every element of `pyRange a b s` (positive step) is strictly below the
stop value. -/
lemma pyRange_lt (a b s : Nat) (hs : 1 ≤ s) :
    ∀ x ∈ pyRange a b s, x < b := by
  intro x hx
  rw [pyRange, List.mem_range'] at hx
  obtain ⟨j, hj, rfl⟩ := hx
  have h1 : (j + 1) * s ≤ ((b - a + s - 1) / s) * s := Nat.mul_le_mul_right s hj
  have h2 : ((b - a + s - 1) / s) * s ≤ b - a + s - 1 := Nat.div_mul_le_self _ _
  have h3 : j * s + s ≤ b - a + s - 1 := by
    have : j * s + s = (j + 1) * s := by ring
    omega
  rw [Nat.mul_comm s j]
  have h4 : a + j * s < b := by omega
  exact h4

/-- Every element of `pyRange a b s` is at least the start value. -/
lemma pyRange_le_mem (a b s : Nat) : ∀ x ∈ pyRange a b s, a ≤ x := by
  intro x hx
  rw [pyRange, List.mem_range'] at hx
  obtain ⟨j, hj, rfl⟩ := hx
  omega

/-- The chunk end points of the outgoing-transfer read are strictly
increasing. -/
lemma to_block_numbers_pairwise (f l nb : Nat) (hnb : 1 ≤ nb) :
    List.Pairwise (· < ·) (to_block_numbers f l nb) := by
  rw [to_block_numbers]
  refine List.pairwise_append.mpr ⟨?_, List.pairwise_singleton _ _, ?_⟩
  · exact List.pairwise_lt_range' _ _ nb (by omega)
  · intro x hx y hy
    rw [List.mem_singleton] at hy
    have := pyRange_lt (f + nb) l nb hnb x hx
    omega

/-- C5: for every block range and positive chunk size, the chunk loop of
`read_outgoing_transfers_from_block` fetches the event logs of the range
`[from_block, latest_block]` exactly once: the concatenation of the
per-chunk fetches, in chunk order, equals the single unchunked fetch over
the whole range, whatever events the chain's blocks hold. -/
theorem C5_chunked_fetch_coverage {α : Type} (chain : Nat → List α)
    (from_block latest_block number_blocks : Nat)
    (h_nb : 1 ≤ number_blocks) (h_le : from_block ≤ latest_block) :
    collect_event_logs chain from_block
      (to_block_numbers from_block latest_block number_blocks) =
    get_logs chain from_block latest_block := by
  refine collect_event_logs_eq_get_logs chain _ from_block latest_block ?_ ?_ ?_
  · exact List.getLast?_concat _
  · intro t ht
    rw [to_block_numbers, List.mem_append] at ht
    rcases ht with ht | ht
    · have := pyRange_le_mem (from_block + number_blocks) latest_block
        number_blocks t ht
      omega
    · rw [List.mem_singleton] at ht
      omega
  · exact to_block_numbers_pairwise from_block latest_block number_blocks h_nb

/-- C5 (witness): the coverage theorem at a concrete range, chunk size and
chain: chunked collection over `[3, 10]` with chunk span 2 yields the blocks
in order, as does the unchunked fetch. -/
theorem C5_chunked_fetch_coverage_witness :
    collect_event_logs (fun b => [b]) 3 (to_block_numbers 3 10 2) =
      get_logs (fun b => [b]) 3 10 :=
  C5_chunked_fetch_coverage (fun b => [b]) 3 10 2 (by decide) (by decide)

/-! ## C7: the sign/recover roundtrip of the attestation -/

/-- C7: for every incoming transfer destined for the client's own
blockchain and every private key, recovering the signer's address from the
recovery request whose fields are the transfer's fields and whose signature
was produced by `create_transfer_to_signature` over the same fields yields
exactly the address derived from that key: both paths build the identical
canonical transferTo message. -/
theorem C7_sign_recover_roundtrip (incoming_transfer : CrossChainTransfer)
    (validator_nonce : Nat)
    (hub_address forwarder_address pan_token_address : String)
    (private_key own_blockchain : Nat) (signature : Signature)
    (h_dest : incoming_transfer.eventual_destination_blockchain = own_blockchain)
    (h_sig : create_transfer_to_signature incoming_transfer validator_nonce
      hub_address forwarder_address pan_token_address private_key =
      some signature) :
    recover_transfer_to_signer_address own_blockchain hub_address
      forwarder_address pan_token_address
      { source_blockchain := incoming_transfer.source_blockchain,
        source_transaction_id := incoming_transfer.source_transaction_id,
        source_transfer_id := incoming_transfer.source_transfer_id,
        sender_address := incoming_transfer.sender_address,
        recipient_address := incoming_transfer.eventual_recipient_address,
        source_token_address := incoming_transfer.source_token_address,
        destination_token_address :=
          incoming_transfer.eventual_destination_token_address,
        amount := incoming_transfer.amount,
        validator_nonce := validator_nonce, signature := signature } =
    some (get_address private_key) := by
  subst h_dest
  unfold create_transfer_to_signature at h_sig
  unfold recover_transfer_to_signer_address
  cases hmsg : create_transfer_to_message incoming_transfer.source_blockchain
      incoming_transfer.eventual_destination_blockchain
      incoming_transfer.source_transaction_id
      incoming_transfer.source_transfer_id incoming_transfer.sender_address
      incoming_transfer.eventual_recipient_address
      incoming_transfer.source_token_address
      incoming_transfer.eventual_destination_token_address
      incoming_transfer.amount validator_nonce hub_address forwarder_address
      pan_token_address with
  | none => rw [hmsg] at h_sig; cases h_sig
  | some message =>
    rw [hmsg] at h_sig
    cases h_sig
    simp [sign_message, recover_message]

/-- The signature produced over `sampleTransfer` with private key 7. -/
def sampleSignature : Signature :=
  (create_transfer_to_signature sampleTransfer 42 sampleAddressC
    sampleAddressD sampleAddressE 7).getD ⟨[], 0⟩

set_option maxRecDepth 8000 in
/-- C7 (witness): the roundtrip at a concrete transfer and key. -/
theorem C7_sign_recover_roundtrip_witness :
    recover_transfer_to_signer_address 0 sampleAddressC sampleAddressD
      sampleAddressE
      { source_blockchain := sampleTransfer.source_blockchain,
        source_transaction_id := sampleTransfer.source_transaction_id,
        source_transfer_id := sampleTransfer.source_transfer_id,
        sender_address := sampleTransfer.sender_address,
        recipient_address := sampleTransfer.eventual_recipient_address,
        source_token_address := sampleTransfer.source_token_address,
        destination_token_address :=
          sampleTransfer.eventual_destination_token_address,
        amount := sampleTransfer.amount, validator_nonce := 42,
        signature := sampleSignature } = some (get_address 7) :=
  C7_sign_recover_roundtrip sampleTransfer 42 sampleAddressC sampleAddressD
    sampleAddressE 7 0 sampleSignature rfl (by rfl)

/-- C4 (witness): the amended characterization at the concrete valid id
`"0x" + "a"*64` (66 characters). -/
theorem C4_transaction_id_exact_match_witness :
    is_valid_transaction_id "0xaaaaaaaaaaaaaaaaaaaaaaaaaaaaaaaaaaaaaaaaaaaaaaaaaaaaaaaaaaaaaaaa" = true ↔
      (("0xaaaaaaaaaaaaaaaaaaaaaaaaaaaaaaaaaaaaaaaaaaaaaaaaaaaaaaaaaaaaaaaa" : String).data.length = 66 ∧
        ("0xaaaaaaaaaaaaaaaaaaaaaaaaaaaaaaaaaaaaaaaaaaaaaaaaaaaaaaaaaaaaaaaa" : String).data.take 2 = ['0', 'x'] ∧
        (("0xaaaaaaaaaaaaaaaaaaaaaaaaaaaaaaaaaaaaaaaaaaaaaaaaaaaaaaaaaaaaaaaa" : String).data.drop 2).all isHexDigit = true) :=
  C4_transaction_id_exact_match "0xaaaaaaaaaaaaaaaaaaaaaaaaaaaaaaaaaaaaaaaaaaaaaaaaaaaaaaaaaaaaaaaa"
